import Mathlib

/-!
Verification development for the Bihar Election 2025 analytics question-answering
pipeline (`src/llm.py`, `src/main.py`).  The pipeline's pure string processing
(Python `str.strip`, `str.lower`, `str.startswith`, `in`, `str.replace`) is
embedded as executable Lean functions on `String` via `List Char`, and the
`ask` endpoint's control flow is embedded as a pure function parameterised by
the external oracle (`complete : String → String`, modelling one
`chat.completions.create` round-trip per call) and the store
(`exec : String → Except String DF`, modelling `conn.cursor().execute(...).df()`).
-/

namespace Bihar

/-! ### Python string builtins, embedded on `List Char` -/

/-- ASCII whitespace stripped by Python `str.strip()` (space, tab, newline,
carriage return, vertical tab, form feed). -/
def pyIsSpace (c : Char) : Bool :=
  c = ' ' || c = '\t' || c = '\n' || c = '\r' || c = '\x0b' || c = '\x0c'

/-- Strip characters satisfying `p` from both ends of a list. -/
def stripList (p : Char → Bool) (l : List Char) : List Char :=
  ((l.dropWhile p).reverse.dropWhile p).reverse

/-- Python `s.strip()` (default whitespace stripping). -/
def pyStrip (s : String) : String := ⟨stripList pyIsSpace s.data⟩

/-- Python `s.strip("`")`: strip backtick characters from both ends. -/
def stripBackticks (s : String) : String := ⟨stripList (fun c => c = '`') s.data⟩

/-- Python `s.lower()` (ASCII case folding, which covers the SQL texts here). -/
def pyLower (s : String) : String := ⟨s.data.map Char.toLower⟩

/-- Boolean list-prefix test (Python `str.startswith` on the underlying chars). -/
def isPrefixList : List Char → List Char → Bool
  | [], _ => true
  | _ :: _, [] => false
  | a :: as, b :: bs => a = b && isPrefixList as bs

/-- Python `s.startswith(pre)`. -/
def pyStartsWith (s pre : String) : Bool := isPrefixList pre.data s.data

/-- Python `s.endswith(suf)`. -/
def pyEndsWith (s suf : String) : Bool := isPrefixList suf.data.reverse s.data.reverse

/-- Boolean substring test: does `pat` occur contiguously inside `l`?
(Python `pat in s`.) -/
def containsList (pat : List Char) : List Char → Bool
  | [] => isPrefixList pat []
  | c :: t => isPrefixList pat (c :: t) || containsList pat t

/-- Python `pat in s`. -/
def pyContains (s pat : String) : Bool := containsList pat.data s.data

/-- Python `s[n:]`. -/
def pyDrop (s : String) (n : Nat) : String := ⟨s.data.drop n⟩

/-- Python `s[:-n]` for `n ≤ len s`. -/
def pyDropRight (s : String) (n : Nat) : String := ⟨s.data.take (s.data.length - n)⟩

/-- Python `s.replace("sql", "")`: delete every (left-to-right, non-overlapping)
occurrence of the three-character substring `sql`. -/
def removeSqlList : List Char → List Char
  | 's' :: 'q' :: 'l' :: rest => removeSqlList rest
  | c :: rest => c :: removeSqlList rest
  | [] => []

/-- `fixed.replace("sql", "")` lifted to `String`. -/
def pyRemoveSql (s : String) : String := ⟨removeSqlList s.data⟩

/-! ### `llm.sql_safe` (src/llm.py lines 166-174) -/

/-- The denylist `bad` of `sql_safe`. -/
def badKeywords : List String :=
  ["insert", "update", "delete", "drop", "alter", "create", "truncate"]

/-- `llm.sql_safe`: the Query Validator.  Trim and lower-case the statement;
it must start with `select` or `with`, and must not contain any denylisted
keyword as a substring. -/
def sql_safe (sql : String) : Bool :=
  let lowered := pyLower (pyStrip sql)
  if !(pyStartsWith lowered "select") && !(pyStartsWith lowered "with") then
    false
  else
    !(badKeywords.any fun b => pyContains lowered b)

/-! ### Prompt constants (src/llm.py lines 12-117) -/

/-- `llm.MAX_ROWS_FOR_ANSWER`. -/
def MAX_ROWS_FOR_ANSWER : Nat := 120

/-- `llm.DB_SCHEMA`: the static Schema Catalog text injected into generation
prompts, verbatim. -/
def DB_SCHEMA : String :=
  "\nWe have these DuckDB tables and views:\n\n1) candidates(\n  state TEXT,\n  ac_no INT,\n  ac_name TEXT,\n  sn INT,\n  candidate TEXT,\n  party TEXT,\n  evm_votes INT,\n  postal_votes INT,\n  total_votes INT,\n  vote_percent DOUBLE,\n  is_winner BOOLEAN\n)\n\n2) ac_totals(\n  state TEXT,\n  ac_no INT,\n  ac_name TEXT,\n  total_evm_votes INT,\n  total_postal_votes INT,\n  total_votes INT\n)\n\n3) party_summary(\n  state TEXT,\n  party TEXT,\n  seats_won INT,\n  total_votes BIGINT,\n  vote_share DOUBLE\n)\n\n4) party_map(\n  party_name TEXT,      -- as it appears in the CSV\n  canonical_name TEXT,  -- nice standardized name\n  short_code TEXT,      -- e.g. 'BJP', 'RJD', 'VIP', 'JDU'\n  alliance TEXT         -- e.g. 'NDA', 'MGB', or NULL/OTHER\n)\n\n5) candidates_enriched (VIEW) as:\n  SELECT\n    c.*,\n    pm.canonical_name AS party_canonical,\n    pm.short_code     AS party_short,\n    COALESCE(pm.alliance, 'OTHER') AS alliance\n  FROM candidates c\n  LEFT JOIN party_map pm ON c.party = pm.party_name;\n\n  Columns:\n  state, ac_no, ac_name, sn, candidate, party,\n  evm_votes, postal_votes, total_votes, vote_percent, is_winner,\n  party_canonical, party_short, alliance\n\n6) party_summary_enriched (VIEW) as:\n  SELECT\n    ps.state,\n    ps.party,\n    pm.canonical_name AS party_canonical,\n    pm.short_code     AS party_short,\n    COALESCE(pm.alliance, 'OTHER') AS alliance,\n    ps.seats_won,\n    ps.total_votes,\n    ps.vote_share\n  FROM party_summary ps\n  LEFT JOIN party_map pm ON ps.party = pm.party_name;\n\n  Columns:\n  state, party, party_canonical, party_short, alliance,\n  seats_won, total_votes, vote_share\n\n7) alliance_summary(\n  alliance TEXT,        -- 'NDA', 'MGB', 'OTHER'\n  seats_won INT,\n  total_votes BIGINT,\n  vote_share DOUBLE\n)\n\nNotes:\n- alliance is typically 'NDA', 'MGB', or 'OTHER'.\n- party_short contains short codes like 'BJP', 'RJD', 'VIP', 'JDU', etc.\n- For queries about alliances (NDA vs MGB), use alliance_summary or group by alliance\n  in candidates_enriched or party_summary_enriched.\n- For queries that use party short codes (e.g. 'BJP', 'RJD'), filter on party_short\n  in candidates_enriched or party_summary_enriched.\n"

/-- `llm.DOMAIN_CONTEXT`: fixed domain disambiguation notes, verbatim. -/
def DOMAIN_CONTEXT : String :=
  "\nIMPORTANT PARTY ABBREVIATIONS & CONTEXT:\n- JSP = Jan Suraaj Party (Founded by Prashant Kishor). IT IS NOT \"Janata Socialist Party\".\n- RJD = Rashtriya Janata Dal\n- JDU = Janata Dal (United)\n- VIP = Vikassheel Insaan Party\n- HAM = Hindustani Awam Morcha\n- CPIML / CPI(ML) = Communist Party of India (Marxist–Leninist) Liberation\n- AIMIM = All India Majlis-e-Ittehadul Muslimeen\n- IND = Independent candidates (not a political party)\n"

/-! ### `llm.generate_sql` (src/llm.py lines 120-163) -/

/-- The generation prompt built by `generate_sql` (f-string, then `.strip()`). -/
def generate_sql_prompt (question : String) : String :=
  pyStrip
    ("\nYou are a data analyst writing SQL for DuckDB against the following schema:\n\n"
      ++ DB_SCHEMA ++ "\n\n" ++ DOMAIN_CONTEXT
      ++ "\n\nWrite a SINGLE SQL SELECT query that answers the user's question.\n\nRules:\n- Only use SELECT (no INSERT/UPDATE/DELETE/CREATE/DROP/ALTER/TRUNCATE).\n- Do not modify data.\n- Prefer concise results (include LIMIT where appropriate).\n- For vague questions like \"Top candidates\", default LIMIT 50.\n- Use correct column and table/view names.\n- Prefer using candidates_enriched, party_summary_enriched, and alliance_summary\n  when working with alliances or party short codes.\n- Be careful with table aliases: if you alias a table as \"ce\", use \"ce\" consistently.\n- Do NOT wrap the query in backticks.\n- Return only the SQL, nothing else.\n\nUser question: "
      ++ question ++ "\n")

/-- `llm.generate_sql`: call the oracle on the generation prompt, then strip
markdown code fences the model may still emit, and trim. -/
def generate_sql (complete : String → String) (question : String) : String :=
  let sql0 := pyStrip (complete (generate_sql_prompt question))
  let sql1 := if pyStartsWith sql0 "```sql" then pyDrop sql0 6 else sql0
  let sql2 := if pyStartsWith sql1 "```" then pyDrop sql1 3 else sql1
  let sql3 := if pyEndsWith sql2 "```" then pyDropRight sql2 3 else sql2
  pyStrip sql3

/-! ### `main.repair_sql` (src/main.py lines 230-236) -/

/-- The repair prompt of `main.repair_sql`. -/
def repair_prompt (question bad_sql error_msg : String) : String :=
  "Fix SQL: " ++ bad_sql ++ " Error: " ++ error_msg ++ " Question: " ++ question
    ++ " Return SINGLE SELECT query. No Markdown."

/-- The post-processing `main.repair_sql` applies to the oracle's raw reply:
trim; if the reply starts with a code fence, strip backticks from both ends,
delete every occurrence of the substring `sql`, and trim again. -/
def repair_fix (raw : String) : String :=
  let fixed := pyStrip raw
  if pyStartsWith fixed "```" then pyStrip (pyRemoveSql (stripBackticks fixed))
  else fixed

/-- `main.repair_sql`: one oracle round-trip on the repair prompt, then
`repair_fix` post-processing. -/
def repair_sql (complete : String → String) (question bad_sql error_msg : String) :
    String :=
  repair_fix (complete (repair_prompt question bad_sql error_msg))

/-! ### `llm.generate_answer_text` (src/llm.py lines 177-224)

`rows` is kept abstract (`Row` is a type parameter); `rowsJson` models
`json.dumps(rows_for_llm, ...)`, the external serialisation of the row sample
actually included in the prompt. -/

/-- The `truncation_note` local of `generate_answer_text`: non-empty exactly
when the row list exceeds `MAX_ROWS_FOR_ANSWER`. -/
def truncation_note (total_rows : Nat) : String :=
  if total_rows > MAX_ROWS_FOR_ANSWER then
    "\nNOTE: Only the first " ++ toString MAX_ROWS_FOR_ANSWER ++ " of "
      ++ toString total_rows
      ++ " rows are shown in Result rows. Base your answer on these, and you may describe overall patterns without listing every row."
  else ""

/-- The summarization prompt built by `generate_answer_text`: the row sample
serialised into it is `rows.take MAX_ROWS_FOR_ANSWER`, annotated by
`truncation_note rows.length`. -/
def answer_prompt {Row : Type} (rowsJson : List Row → String)
    (question sql : String) (rows : List Row) : String :=
  let total_rows := rows.length
  let rows_for_llm := rows.take MAX_ROWS_FOR_ANSWER
  let rows_json := rowsJson rows_for_llm
  pyStrip
    ("\nUser question:\n" ++ question ++ "\n\nSQL used:\n" ++ sql ++ "\n\n"
      ++ DOMAIN_CONTEXT ++ "\n\nResult rows (JSON, up to "
      ++ toString MAX_ROWS_FOR_ANSWER ++ " rows):\n" ++ rows_json ++ "\n"
      ++ truncation_note total_rows
      ++ "\n\nInstructions:\n- Base your answer ONLY on the information in the result rows.\n- Explain the answer clearly in 1–3 short paragraphs.\n- Highlight key numbers (vote shares, total votes, seats won, margins, etc.) when relevant.\n- If the result is a list (e.g., top candidates or constituencies), summarise patterns\n  such as which parties or alliances dominate.\n- If there are no rows, say that no matching data was found.\n- Do NOT invent data that is not present in the rows.\n- STRICTLY use the party abbreviations defined in the CONTEXT (e.g., JSP is Jan Suraaj Party).\n")

/-- `llm.generate_answer_text`: one oracle round-trip on the summarization
prompt, reply trimmed. -/
def generate_answer_text {Row : Type} (complete : String → String)
    (rowsJson : List Row → String) (question sql : String) (rows : List Row) :
    String :=
  pyStrip (complete (answer_prompt rowsJson question sql rows))

/-! ### `main.ask` (src/main.py lines 238-271)

`DF` abstracts a pandas DataFrame returned by `conn.cursor().execute(sql).df()`;
`exec` abstracts the store (returning the DataFrame or the DuckDB error message
`str(e)`); `dfToDict` abstracts `df_to_clean_dict`; `complete` is the oracle.
Alongside the HTTP result, `askT` records the externally visible calls in
order: one `genCall` per `generate_sql` invocation, one `repairCall` per
`repair_sql` invocation, one `answerCall` per `generate_answer_text`
invocation (each of those functions performs exactly one
`chat.completions.create` round-trip in the source), and one `execCall sql`
per `conn.cursor().execute(sql)` on the ask path. -/

/-- `fastapi.HTTPException(status_code, detail)` as raised by `ask`. -/
structure HTTPException where
  status : Nat
  detail : String
deriving DecidableEq, Repr

/-- The `AskResponse` pydantic response model of `main.py`. -/
structure AskResponse (Row : Type) where
  question : String
  sql : String
  answer : String
  rows : List Row
deriving DecidableEq, Repr

/-- Externally visible calls made while serving one `ask` request. -/
inductive TraceEvent where
  | genCall
  | repairCall
  | answerCall
  | execCall (sql : String)
deriving DecidableEq, Repr

/-- The answer construction of `ask` (src/main.py lines 255-268): for more
than 25 rows the Summarizer sees only `rows[:5]` and a fixed disclosure note
naming the true total is appended; otherwise the Summarizer sees all rows. -/
def mkAnswer {Row : Type} (complete : String → String)
    (rowsJson : List Row → String) (question sql : String) (rows : List Row) :
    String :=
  if rows.length > 25 then
    generate_answer_text complete rowsJson question sql (rows.take 5)
      ++ ("\n\n**Note:** Found " ++ toString rows.length
        ++ " results. I've summarized the top few above. Please refer to the data table for the full list.")
  else
    generate_answer_text complete rowsJson question sql rows

/-- `main.ask`, instrumented with the call trace.  Mirrors the source control
flow: trim the question and reject if empty; generate SQL; reject if
`sql_safe` fails; execute; on a store error call `repair_sql` once and
re-execute the repaired SQL directly (the source performs no second
validation and no second repair); on a second store error fail with the
second diagnostic; otherwise build the answer and return the full row set. -/
def askT {DF Row : Type} (complete : String → String)
    (exec : String → Except String DF) (dfToDict : DF → List Row)
    (rowsJson : List Row → String) (rawQuestion : String) :
    Except HTTPException (AskResponse Row) × List TraceEvent :=
  let question := pyStrip rawQuestion
  if question = "" then
    (.error ⟨400, "Empty question"⟩, [])
  else
    let sql := generate_sql complete question
    if !(sql_safe sql) then
      (.error ⟨400, "Unsafe SQL"⟩, [.genCall])
    else
      match exec sql with
      | .ok df =>
        let rows := dfToDict df
        (.ok ⟨question, sql, mkAnswer complete rowsJson question sql rows, rows⟩,
          [.genCall, .execCall sql, .answerCall])
      | .error e =>
        let sql2 := repair_sql complete question sql e
        match exec sql2 with
        | .ok df =>
          let rows := dfToDict df
          (.ok ⟨question, sql2, mkAnswer complete rowsJson question sql2 rows, rows⟩,
            [.genCall, .execCall sql, .repairCall, .execCall sql2, .answerCall])
        | .error e2 =>
          (.error ⟨400, "Error executing SQL: " ++ e2⟩,
            [.genCall, .execCall sql, .repairCall, .execCall sql2])

/-- The HTTP outcome of one `ask` request. -/
def ask {DF Row : Type} (complete : String → String)
    (exec : String → Except String DF) (dfToDict : DF → List Row)
    (rowsJson : List Row → String) (rawQuestion : String) :
    Except HTTPException (AskResponse Row) :=
  (askT complete exec dfToDict rowsJson rawQuestion).1

/-- The call trace of one `ask` request. -/
def askTrace {DF Row : Type} (complete : String → String)
    (exec : String → Except String DF) (dfToDict : DF → List Row)
    (rowsJson : List Row → String) (rawQuestion : String) :
    List TraceEvent :=
  (askT complete exec dfToDict rowsJson rawQuestion).2

/-- The oracle round-trips among the trace events. -/
def isOracleCall : TraceEvent → Bool
  | .genCall => true
  | .repairCall => true
  | .answerCall => true
  | .execCall _ => false

/-- Recogniser for generation round-trips. -/
def isGenCall : TraceEvent → Bool
  | .genCall => true
  | _ => false

/-- Recogniser for repair round-trips. -/
def isRepairCall : TraceEvent → Bool
  | .repairCall => true
  | _ => false

/-- Recogniser for summarization round-trips. -/
def isAnswerCall : TraceEvent → Bool
  | .answerCall => true
  | _ => false

/-- Number of trace events of a given kind. -/
def countKind (k : TraceEvent → Bool) (l : List TraceEvent) : Nat :=
  (l.filter k).length

/-! ### Spec-level Validator predicate

Modelled from the spec's words (§4.3): "the trimmed, lower-cased statement
must start with `select` or `with`; reject if it contains any of a fixed
denylist of mutating keywords ... as substrings anywhere in the text".
Stated independently of `sql_safe`, to be compared with it. -/

/-- Spec wording of the Validator's accept condition. -/
def validator_spec (sql : String) : Prop :=
  (pyStartsWith (pyLower (pyStrip sql)) "select" = true ∨
    pyStartsWith (pyLower (pyStrip sql)) "with" = true) ∧
  ∀ b ∈ badKeywords, ∀ s t : List Char,
    (pyLower (pyStrip sql)).data ≠ s ++ b.data ++ t

/-! ### Concrete oracle/store instances used for counterexamples and witnesses -/

/-- Oracle whose generation reply is a safe query and whose repair reply is a
mutating statement the Validator would reject. -/
def c1complete : String → String := fun p =>
  if pyStartsWith p "Fix SQL:" then "DROP TABLE candidates" else "SELECT 1"

/-- Store on which the generated query fails and the (unsafe) repaired query
succeeds. -/
def c1exec : String → Except String Unit := fun s =>
  if s = "DROP TABLE candidates" then .ok () else .error "boom"

/-- Trivial DataFrame conversion for the `Unit` store. -/
def c1dfToDict : Unit → List Unit := fun _ => []

/-- Trivial row serialisation. -/
def c1rowsJson : List Unit → String := fun _ => "[]"

/-- Oracle for the C3 witness: generation reply `select 1`, repair reply
`select 2`. -/
def c3complete : String → String := fun p =>
  if pyStartsWith p "Fix SQL:" then "select 2" else "select 1"

/-- Store for the C3 witness: the generated query fails, the repaired query
returns a 30-row result (a repair-path success). -/
def c3exec : String → Except String (List Nat) := fun s =>
  if s = "select 1" then .error "boom" else .ok (List.range 30)

/-- Identity DataFrame conversion. -/
def c3dfToDict : List Nat → List Nat := fun df => df

/-- Trivial row serialisation for `Nat` rows. -/
def c3rowsJson : List Nat → String := fun _ => "[]"

/-- The response produced by `ask` on the C3 witness input: the repaired
query succeeded with 30 rows. -/
def c3resp : AskResponse Nat :=
  ⟨"top parties", "select 2",
   "select 1"
     ++ ("\n\n**Note:** Found 30 results. I've summarized the top few above. Please refer to the data table for the full list."),
   List.range 30⟩

/-- Oracle whose generation reply is `select 1` and whose repair reply is
`select 2`. -/
def c4complete : String → String := fun p =>
  if pyStartsWith p "Fix SQL:" then "select 2" else "select 1"

/-- Store on which both the generated and the repaired query fail, with
distinct diagnostics. -/
def c4exec : String → Except String Unit := fun s =>
  if s = "select 1" then .error "first error" else .error "second error"

/-- Trivial DataFrame conversion. -/
def c4dfToDict : Unit → List Unit := fun _ => []

/-- Trivial row serialisation. -/
def c4rowsJson : List Unit → String := fun _ => "[]"

/-- Oracle for the repaired-success scenario: generation `select 1`, repair
`select 2`. -/
def c5complete : String → String := fun p =>
  if pyStartsWith p "Fix SQL:" then "select 2" else "select 1"

/-- Store on which the generated query fails and the repaired query succeeds. -/
def c5exec : String → Except String Unit := fun s =>
  if s = "select 1" then .error "boom" else .ok ()

/-- Trivial DataFrame conversion. -/
def c5dfToDict : Unit → List Unit := fun _ => []

/-- Trivial row serialisation. -/
def c5rowsJson : List Unit → String := fun _ => "[]"

/-- Oracle used for the empty-question witness. -/
def c7complete : String → String := fun _ => "SELECT 1"

/-- Store used for the empty-question witness. -/
def c7exec : String → Except String Unit := fun _ => .error "unused"

/-- Trivial DataFrame conversion. -/
def c7dfToDict : Unit → List Unit := fun _ => []

/-- Trivial row serialisation. -/
def c7rowsJson : List Unit → String := fun _ => "[]"

/-- Oracle used for the summarization row-budget witness. -/
def c8complete : String → String := fun _ => "answer text"

/-- Trivial row serialisation for `Nat` rows. -/
def c8rowsJson : List Nat → String := fun _ => "[]"

/-- Deterministic oracle for the idempotence witness. -/
def c9complete : String → String := fun _ => "SELECT 1"

/-- Deterministic store for the idempotence witness. -/
def c9exec : String → Except String Unit := fun _ => .ok ()

/-- Trivial DataFrame conversion. -/
def c9dfToDict : Unit → List Unit := fun _ => []

/-- Trivial row serialisation. -/
def c9rowsJson : List Unit → String := fun _ => "[]"

/-- The response produced by `ask` on the idempotence witness input. -/
def c9resp : AskResponse Unit := ⟨"q", "SELECT 1", "SELECT 1", []⟩

/-! ### Basic facts about the list-level string helpers -/

theorem isPrefixList_iff (p l : List Char) :
    isPrefixList p l = true ↔ ∃ t, l = p ++ t := by
  induction p generalizing l with
  | nil => simp [isPrefixList]
  | cons a as ih =>
    cases l with
    | nil => simp [isPrefixList]
    | cons b bs =>
      simp only [isPrefixList, Bool.and_eq_true, decide_eq_true_eq, ih]
      constructor
      · rintro ⟨rfl, t, rfl⟩; exact ⟨t, rfl⟩
      · rintro ⟨t, h⟩
        injection h with h1 h2
        exact ⟨h1.symm, t, h2⟩

theorem containsList_iff (pat l : List Char) :
    containsList pat l = true ↔ ∃ s t, l = s ++ pat ++ t := by
  induction l with
  | nil =>
    simp only [containsList, isPrefixList_iff]
    constructor
    · rintro ⟨t, h⟩
      exact ⟨[], t, by simpa using h⟩
    · rintro ⟨s, t, h⟩
      rcases List.append_eq_nil.mp h.symm with ⟨h1, h2⟩
      rcases List.append_eq_nil.mp h1 with ⟨h3, h4⟩
      exact ⟨t, by simp [h4, h2]⟩
  | cons c cs ih =>
    simp only [containsList, Bool.or_eq_true, isPrefixList_iff, ih]
    constructor
    · rintro (⟨t, h⟩ | ⟨s, t, h⟩)
      · exact ⟨[], t, by simpa using h⟩
      · exact ⟨c :: s, t, by simp [h]⟩
    · rintro ⟨s, t, h⟩
      cases s with
      | nil => exact Or.inl ⟨t, by simpa using h⟩
      | cons x xs =>
        right
        injection h with h1 h2
        exact ⟨xs, t, h2⟩

theorem containsList_append_middle (pat s t : List Char) :
    containsList pat (s ++ pat ++ t) = true :=
  (containsList_iff pat _).mpr ⟨s, t, rfl⟩

theorem string_data_append (a b : String) : (a ++ b).data = a.data ++ b.data := rfl

/-- A decomposition of `x` as `s ++ pat ++ t` shows `pat` occurs in `x`. -/
theorem pyContains_of_decomp (x pat : String) (s t : List Char)
    (h : x.data = s ++ pat.data ++ t) : pyContains x pat = true := by
  unfold pyContains
  rw [h]
  exact containsList_append_middle _ _ _

/-- If `mid` occurs as a substring of `y`, it occurs as a substring of `x ++ y`. -/
theorem pyContains_append_right (x y mid : String)
    (h : pyContains y mid = true) : pyContains (x ++ y) mid = true := by
  unfold pyContains at *
  rcases (containsList_iff _ _).mp h with ⟨s, t, hy⟩
  rw [string_data_append, hy]
  exact (containsList_iff _ _).mpr ⟨x.data ++ s, t, by simp⟩

/-! ### Control-flow lemmas for `askT` -/

/-- Happy path: non-empty question, safe generated query, first execution
succeeds. -/
theorem askT_first_ok {DF Row : Type} (complete : String → String)
    (exec : String → Except String DF) (dfToDict : DF → List Row)
    (rowsJson : List Row → String) (q : String)
    (hq : pyStrip q ≠ "")
    (hsafe : sql_safe (generate_sql complete (pyStrip q)) = true)
    (df : DF) (hexec : exec (generate_sql complete (pyStrip q)) = .ok df) :
    askT complete exec dfToDict rowsJson q =
      (.ok ⟨pyStrip q, generate_sql complete (pyStrip q),
            mkAnswer complete rowsJson (pyStrip q)
              (generate_sql complete (pyStrip q)) (dfToDict df),
            dfToDict df⟩,
       [.genCall, .execCall (generate_sql complete (pyStrip q)), .answerCall]) := by
  unfold askT
  simp [hq, hsafe, hexec]

/-- Repair path: first execution fails, repaired query executes successfully.
Note the absence of any hypothesis about `sql_safe` on the repaired query:
the source re-executes it without re-validation. -/
theorem askT_repair_ok {DF Row : Type} (complete : String → String)
    (exec : String → Except String DF) (dfToDict : DF → List Row)
    (rowsJson : List Row → String) (q e : String)
    (hq : pyStrip q ≠ "")
    (hsafe : sql_safe (generate_sql complete (pyStrip q)) = true)
    (hexec1 : exec (generate_sql complete (pyStrip q)) = .error e)
    (df : DF)
    (hexec2 : exec (repair_sql complete (pyStrip q)
        (generate_sql complete (pyStrip q)) e) = .ok df) :
    askT complete exec dfToDict rowsJson q =
      (.ok ⟨pyStrip q,
            repair_sql complete (pyStrip q) (generate_sql complete (pyStrip q)) e,
            mkAnswer complete rowsJson (pyStrip q)
              (repair_sql complete (pyStrip q) (generate_sql complete (pyStrip q)) e)
              (dfToDict df),
            dfToDict df⟩,
       [.genCall, .execCall (generate_sql complete (pyStrip q)), .repairCall,
        .execCall (repair_sql complete (pyStrip q) (generate_sql complete (pyStrip q)) e),
        .answerCall]) := by
  unfold askT
  simp [hq, hsafe, hexec1, hexec2]

/-- Failure path: both the generated and the repaired query fail to execute. -/
theorem askT_repair_fail {DF Row : Type} (complete : String → String)
    (exec : String → Except String DF) (dfToDict : DF → List Row)
    (rowsJson : List Row → String) (q e e2 : String)
    (hq : pyStrip q ≠ "")
    (hsafe : sql_safe (generate_sql complete (pyStrip q)) = true)
    (hexec1 : exec (generate_sql complete (pyStrip q)) = .error e)
    (hexec2 : exec (repair_sql complete (pyStrip q)
        (generate_sql complete (pyStrip q)) e) = .error e2) :
    askT complete exec dfToDict rowsJson q =
      (.error ⟨400, "Error executing SQL: " ++ e2⟩,
       [.genCall, .execCall (generate_sql complete (pyStrip q)), .repairCall,
        .execCall (repair_sql complete (pyStrip q)
          (generate_sql complete (pyStrip q)) e)]) := by
  unfold askT
  simp [hq, hsafe, hexec1, hexec2]

/-! ### Claim theorems -/

/-- Claim C2: for every candidate query string, the Validator `sql_safe`
accepts it if and only if the trimmed, lower-cased text starts with `select`
or `with` and contains none of the denylisted mutating keywords (insert,
update, delete, drop, alter, create, truncate) as a substring anywhere in
that text; in particular any query containing a mutating keyword anywhere is
rejected even when it begins with `select`. -/
theorem C2_validator_accepts_iff :
    (∀ sql : String, sql_safe sql = true ↔ validator_spec sql) ∧
    (∀ sql : String, ∀ b ∈ badKeywords, ∀ s t : List Char,
      (pyLower (pyStrip sql)).data = s ++ b.data ++ t → sql_safe sql = false) := by
  have main : ∀ sql : String, sql_safe sql = true ↔ validator_spec sql := by
    intro sql
    unfold sql_safe validator_spec
    cases h1 : pyStartsWith (pyLower (pyStrip sql)) "select" <;>
      cases h2 : pyStartsWith (pyLower (pyStrip sql)) "with" <;>
        simp [h1, h2, pyContains, containsList_iff, not_exists]
  refine ⟨main, ?_⟩
  intro sql b hb s t hdec
  cases hsf : sql_safe sql
  · rfl
  · exact absurd hdec (((main sql).mp hsf).2 b hb s t)

/-- Witness for C2: a query beginning with `select` but containing `update`
is rejected (via the theorem), and a plain trimmed SELECT is accepted. -/
theorem C2_validator_witness :
    sql_safe "SELECT 1; UPDATE candidates SET is_winner = 0" = false ∧
    sql_safe "  SELECT seats_won FROM party_summary  " = true :=
  ⟨C2_validator_accepts_iff.2 "SELECT 1; UPDATE candidates SET is_winner = 0"
      "update" (by decide) ("select 1; ").data (" candidates set is_winner = 0").data
      (by decide),
    by decide⟩

/-- Claim C10: `repair_sql`'s post-processing of the oracle reply: an
unfenced reply is returned with only whitespace trimmed, while a reply whose
trimmed text begins with a code fence has backticks stripped from both ends
and every occurrence of the substring `sql` deleted from the whole text —
including occurrences inside the query body, as the concrete instance with
the identifier `party_sql` shows. -/
theorem C10_repair_postprocessing :
    (∀ raw : String, pyStartsWith (pyStrip raw) "```" = false →
      repair_fix raw = pyStrip raw) ∧
    (∀ raw : String, pyStartsWith (pyStrip raw) "```" = true →
      repair_fix raw = pyStrip (pyRemoveSql (stripBackticks (pyStrip raw)))) ∧
    pyContains "```\nSELECT party_sql FROM candidates\n```" "sql" = true ∧
    repair_fix "```\nSELECT party_sql FROM candidates\n```"
      = "SELECT party_ FROM candidates" := by
  refine ⟨?_, ?_, by decide, by decide⟩
  · intro raw h
    unfold repair_fix
    simp [h]
  · intro raw h
    unfold repair_fix
    simp [h]

/-- Witness for C10: both conditional parts of the theorem applied at
concrete replies. -/
theorem C10_repair_postprocessing_witness :
    repair_fix "  SELECT total_votes FROM ac_totals  "
      = pyStrip "  SELECT total_votes FROM ac_totals  " ∧
    repair_fix "```sql SELECT 1```"
      = pyStrip (pyRemoveSql (stripBackticks (pyStrip "```sql SELECT 1```"))) :=
  ⟨C10_repair_postprocessing.1 "  SELECT total_votes FROM ac_totals  " (by decide),
    C10_repair_postprocessing.2.1 "```sql SELECT 1```" (by decide)⟩

/-- Claim C7: a question that is empty or whitespace-only after trimming is
rejected with a 400 client error before any oracle call and before any query
execution: the request's call trace is empty. -/
theorem C7_empty_question_rejected {DF Row : Type} (complete : String → String)
    (exec : String → Except String DF) (dfToDict : DF → List Row)
    (rowsJson : List Row → String) (q : String) (hq : pyStrip q = "") :
    ask complete exec dfToDict rowsJson q = .error ⟨400, "Empty question"⟩ ∧
    askTrace complete exec dfToDict rowsJson q = [] := by
  unfold ask askTrace askT
  simp [hq]

/-- Witness for C7: a whitespace-only question. -/
theorem C7_empty_question_witness :
    ask c7complete c7exec c7dfToDict c7rowsJson " \n  " = .error ⟨400, "Empty question"⟩ ∧
    askTrace c7complete c7exec c7dfToDict c7rowsJson " \n  " = [] :=
  C7_empty_question_rejected c7complete c7exec c7dfToDict c7rowsJson " \n  " (by decide)

/-- Claim C6: on every execution path of `ask` the repair oracle call happens
at most once, the generation and summarization calls at most once each, and
the total number of oracle round-trips is at most three. -/
theorem C6_bounded_oracle_roundtrips {DF Row : Type} (complete : String → String)
    (exec : String → Except String DF) (dfToDict : DF → List Row)
    (rowsJson : List Row → String) (q : String) :
    countKind isRepairCall (askTrace complete exec dfToDict rowsJson q) ≤ 1 ∧
    countKind isGenCall (askTrace complete exec dfToDict rowsJson q) ≤ 1 ∧
    countKind isAnswerCall (askTrace complete exec dfToDict rowsJson q) ≤ 1 ∧
    countKind isOracleCall (askTrace complete exec dfToDict rowsJson q) ≤ 3 := by
  unfold countKind askTrace askT
  dsimp only
  split
  · simp [isRepairCall, isGenCall, isAnswerCall, isOracleCall]
  · split
    · simp [isRepairCall, isGenCall, isAnswerCall, isOracleCall, List.filter]
    · split
      · simp [isRepairCall, isGenCall, isAnswerCall, isOracleCall, List.filter]
      · split
        · simp [isRepairCall, isGenCall, isAnswerCall, isOracleCall, List.filter]
        · simp [isRepairCall, isGenCall, isAnswerCall, isOracleCall, List.filter]

set_option maxRecDepth 100000 in
/-- Claim C1 counterexample: the claim "the repaired query is re-validated
before being re-executed, and a Validator-rejected repaired query is never
executed" is false on the code.  With the concrete oracle `c1complete` whose
repair reply is `DROP TABLE candidates` — which `sql_safe` rejects — `ask`
nevertheless executes the repaired query against the store and returns it in
the envelope instead of failing. -/
theorem C1_counterexample :
    sql_safe "DROP TABLE candidates" = false ∧
    (ask c1complete c1exec c1dfToDict c1rowsJson "how many seats").toOption.map
      (fun r => r.sql) = some "DROP TABLE candidates" ∧
    TraceEvent.execCall "DROP TABLE candidates" ∈
      askTrace c1complete c1exec c1dfToDict c1rowsJson "how many seats" := by
  refine ⟨by decide, by decide, by decide⟩

/-- Claim C1 (amended): on first-execution failure the repaired query obtained
from the oracle is re-executed directly, WITHOUT being re-validated by the
Validator: the conclusion holds for every oracle, with no hypothesis on
`sql_safe` of the repaired query, so a repaired query the Validator would
reject is still executed and, on success, returned to the client. -/
theorem C1_repair_executed_without_revalidation {DF Row : Type}
    (complete : String → String) (exec : String → Except String DF)
    (dfToDict : DF → List Row) (rowsJson : List Row → String) (q e : String)
    (hq : pyStrip q ≠ "")
    (hsafe : sql_safe (generate_sql complete (pyStrip q)) = true)
    (hexec1 : exec (generate_sql complete (pyStrip q)) = .error e)
    (df : DF)
    (hexec2 : exec (repair_sql complete (pyStrip q)
        (generate_sql complete (pyStrip q)) e) = .ok df) :
    ask complete exec dfToDict rowsJson q =
      .ok ⟨pyStrip q,
           repair_sql complete (pyStrip q) (generate_sql complete (pyStrip q)) e,
           mkAnswer complete rowsJson (pyStrip q)
             (repair_sql complete (pyStrip q) (generate_sql complete (pyStrip q)) e)
             (dfToDict df),
           dfToDict df⟩ ∧
    askTrace complete exec dfToDict rowsJson q =
      [.genCall, .execCall (generate_sql complete (pyStrip q)), .repairCall,
       .execCall (repair_sql complete (pyStrip q) (generate_sql complete (pyStrip q)) e),
       .answerCall] := by
  have h := askT_repair_ok complete exec dfToDict rowsJson q e hq hsafe hexec1 df hexec2
  unfold ask askTrace
  rw [h]
  exact ⟨rfl, rfl⟩

set_option maxRecDepth 100000 in
/-- Witness for the amended C1, at the concrete scenario of the
counterexample: the Validator-rejected repaired query is executed and
returned. -/
theorem C1_repair_executed_without_revalidation_witness :
    ask c1complete c1exec c1dfToDict c1rowsJson "how many seats" =
      .ok ⟨pyStrip "how many seats",
           repair_sql c1complete (pyStrip "how many seats")
             (generate_sql c1complete (pyStrip "how many seats")) "boom",
           mkAnswer c1complete c1rowsJson (pyStrip "how many seats")
             (repair_sql c1complete (pyStrip "how many seats")
               (generate_sql c1complete (pyStrip "how many seats")) "boom")
             (c1dfToDict ()),
           c1dfToDict ()⟩ ∧
    askTrace c1complete c1exec c1dfToDict c1rowsJson "how many seats" =
      [.genCall, .execCall (generate_sql c1complete (pyStrip "how many seats")),
       .repairCall,
       .execCall (repair_sql c1complete (pyStrip "how many seats")
         (generate_sql c1complete (pyStrip "how many seats")) "boom"),
       .answerCall] :=
  C1_repair_executed_without_revalidation c1complete c1exec c1dfToDict c1rowsJson
    "how many seats" "boom" (by decide) (by decide) (by rfl) () (by rfl)

/-- Claim C4: when the generated query fails execution and the single
repaired query also fails, the request fails with an execution error whose
message contains the second (repaired) attempt's store diagnostic, and the
trace shows no further repair attempt and no fallback query: exactly the two
executions and one repair call occurred. -/
theorem C4_double_failure_surfaces_second_error {DF Row : Type}
    (complete : String → String) (exec : String → Except String DF)
    (dfToDict : DF → List Row) (rowsJson : List Row → String) (q e e2 : String)
    (hq : pyStrip q ≠ "")
    (hsafe : sql_safe (generate_sql complete (pyStrip q)) = true)
    (hexec1 : exec (generate_sql complete (pyStrip q)) = .error e)
    (hexec2 : exec (repair_sql complete (pyStrip q)
        (generate_sql complete (pyStrip q)) e) = .error e2) :
    ask complete exec dfToDict rowsJson q
      = .error ⟨400, "Error executing SQL: " ++ e2⟩ ∧
    pyContains ("Error executing SQL: " ++ e2) e2 = true ∧
    askTrace complete exec dfToDict rowsJson q =
      [.genCall, .execCall (generate_sql complete (pyStrip q)), .repairCall,
       .execCall (repair_sql complete (pyStrip q)
         (generate_sql complete (pyStrip q)) e)] := by
  have h := askT_repair_fail complete exec dfToDict rowsJson q e e2 hq hsafe hexec1 hexec2
  unfold ask askTrace
  rw [h]
  refine ⟨rfl, ?_, rfl⟩
  apply pyContains_of_decomp _ _ ("Error executing SQL: ").data []
  simp [string_data_append]

set_option maxRecDepth 100000 in
/-- Witness for C4: generated query `select 1` fails with "first error",
repaired query `select 2` fails with "second error"; the surfaced error
carries the second diagnostic. -/
theorem C4_double_failure_witness :
    ask c4complete c4exec c4dfToDict c4rowsJson "bad question"
      = .error ⟨400, "Error executing SQL: " ++ "second error"⟩ ∧
    pyContains ("Error executing SQL: " ++ "second error") "second error" = true ∧
    askTrace c4complete c4exec c4dfToDict c4rowsJson "bad question" =
      [.genCall, .execCall (generate_sql c4complete (pyStrip "bad question")),
       .repairCall,
       .execCall (repair_sql c4complete (pyStrip "bad question")
         (generate_sql c4complete (pyStrip "bad question")) "first error")] :=
  C4_double_failure_surfaces_second_error c4complete c4exec c4dfToDict c4rowsJson
    "bad question" "first error" "second error"
    (by decide) (by decide) (by rfl) (by rfl)

/-- Claim C5: when the generated query fails exactly once and the repaired
query executes successfully, the `sql` field of the Response Envelope is the
repaired query and (whenever the two differ) not the originally generated
query. -/
theorem C5_envelope_sql_is_repaired_query {DF Row : Type}
    (complete : String → String) (exec : String → Except String DF)
    (dfToDict : DF → List Row) (rowsJson : List Row → String) (q e : String)
    (hq : pyStrip q ≠ "")
    (hsafe : sql_safe (generate_sql complete (pyStrip q)) = true)
    (hexec1 : exec (generate_sql complete (pyStrip q)) = .error e)
    (df : DF)
    (hexec2 : exec (repair_sql complete (pyStrip q)
        (generate_sql complete (pyStrip q)) e) = .ok df)
    (hne : repair_sql complete (pyStrip q) (generate_sql complete (pyStrip q)) e
      ≠ generate_sql complete (pyStrip q)) :
    (ask complete exec dfToDict rowsJson q).toOption.map (fun r => r.sql)
      = some (repair_sql complete (pyStrip q) (generate_sql complete (pyStrip q)) e) ∧
    (ask complete exec dfToDict rowsJson q).toOption.map (fun r => r.sql)
      ≠ some (generate_sql complete (pyStrip q)) := by
  have h := askT_repair_ok complete exec dfToDict rowsJson q e hq hsafe hexec1 df hexec2
  unfold ask
  rw [h]
  constructor
  · simp [Except.toOption]
  · simp [Except.toOption]
    exact hne

set_option maxRecDepth 100000 in
/-- Witness for C5: generated `select 1` fails, repaired `select 2` succeeds;
the envelope's sql is `select 2`, not `select 1`. -/
theorem C5_envelope_sql_witness :
    (ask c5complete c5exec c5dfToDict c5rowsJson "which party won").toOption.map
        (fun r => r.sql)
      = some (repair_sql c5complete (pyStrip "which party won")
          (generate_sql c5complete (pyStrip "which party won")) "boom") ∧
    (ask c5complete c5exec c5dfToDict c5rowsJson "which party won").toOption.map
        (fun r => r.sql)
      ≠ some (generate_sql c5complete (pyStrip "which party won")) :=
  C5_envelope_sql_is_repaired_query c5complete c5exec c5dfToDict c5rowsJson
    "which party won" "boom" (by decide) (by decide) (by rfl) () (by rfl) (by decide)

/-- Claim C9: `ask` is a deterministic function of the question, the oracle
and the store; two runs with the same question against the same store and a
deterministic oracle (both modelled as functions, so identical in both runs)
produce identical final SQL and identical row sets. -/
theorem C9_deterministic_replay {DF Row : Type} (complete : String → String)
    (exec : String → Except String DF) (dfToDict : DF → List Row)
    (rowsJson : List Row → String) (q : String) (r1 r2 : AskResponse Row)
    (h1 : ask complete exec dfToDict rowsJson q = .ok r1)
    (h2 : ask complete exec dfToDict rowsJson q = .ok r2) :
    r1.sql = r2.sql ∧ r1.rows = r2.rows := by
  have h := h1.symm.trans h2
  injection h with h
  exact ⟨by rw [h], by rw [h]⟩

set_option maxRecDepth 100000 in
/-- Witness for C9 at a concrete deterministic oracle and store. -/
theorem C9_deterministic_replay_witness :
    c9resp.sql = c9resp.sql ∧ c9resp.rows = c9resp.rows :=
  C9_deterministic_replay c9complete c9exec c9dfToDict c9rowsJson "q" c9resp c9resp
    (by rfl) (by rfl)

/-- Claim C3: for EVERY successful request (first-execution or repair-path)
whose result has more than 25 rows, the Summarizer is invoked with only the
first 5 rows of the result, the returned answer text contains the total row
count and a reference to the full data table, and the envelope's `rows`
field still carries the complete untruncated row set of the executed query.
-/
theorem C3_large_result_sampling {DF Row : Type} (complete : String → String)
    (exec : String → Except String DF) (dfToDict : DF → List Row)
    (rowsJson : List Row → String) (q : String) (r : AskResponse Row)
    (hok : ask complete exec dfToDict rowsJson q = .ok r)
    (hlen : 25 < r.rows.length) :
    r.answer
      = generate_answer_text complete rowsJson r.question r.sql (r.rows.take 5)
        ++ ("\n\n**Note:** Found " ++ toString r.rows.length
          ++ " results. I've summarized the top few above. Please refer to the data table for the full list.") ∧
    pyContains r.answer (toString r.rows.length) = true ∧
    pyContains r.answer "Please refer to the data table for the full list." = true ∧
    ∃ df : DF, exec r.sql = .ok df ∧ r.rows = dfToDict df := by
  have hshape : r.answer = mkAnswer complete rowsJson r.question r.sql r.rows ∧
      ∃ df : DF, exec r.sql = .ok df ∧ r.rows = dfToDict df := by
    unfold ask askT at hok
    dsimp only at hok
    split at hok
    · simp at hok
    · split at hok
      · simp at hok
      · split at hok
        · rename_i df heq
          dsimp only at hok
          injection hok with hok
          subst hok
          exact ⟨rfl, df, heq, rfl⟩
        · rename_i e herr
          split at hok
          · rename_i df heq
            dsimp only at hok
            injection hok with hok
            subst hok
            exact ⟨rfl, df, heq, rfl⟩
          · simp at hok
  obtain ⟨hans, hdf⟩ := hshape
  have hA : mkAnswer complete rowsJson r.question r.sql r.rows
      = generate_answer_text complete rowsJson r.question r.sql (r.rows.take 5)
        ++ ("\n\n**Note:** Found " ++ toString r.rows.length
          ++ " results. I've summarized the top few above. Please refer to the data table for the full list.") := by
    unfold mkAnswer
    rw [if_pos hlen]
  rw [hans, hA]
  refine ⟨rfl, ?_, ?_, hdf⟩
  · apply pyContains_append_right
    apply pyContains_of_decomp _ _ ("\n\n**Note:** Found ").data
      (" results. I've summarized the top few above. Please refer to the data table for the full list.").data
    simp [string_data_append]
  · apply pyContains_append_right
    apply pyContains_of_decomp _ _
      (("\n\n**Note:** Found ").data ++ (toString r.rows.length).data
        ++ (" results. I've summarized the top few above. ").data) []
    have hpost : (" results. I've summarized the top few above. Please refer to the data table for the full list." : String).data
        = (" results. I've summarized the top few above. " : String).data
          ++ ("Please refer to the data table for the full list." : String).data := by decide
    simp [string_data_append, hpost, List.append_assoc]

set_option maxRecDepth 100000 in
/-- Witness for C3 on the repair path: the generated query fails, the
repaired `select 2` returns 30 rows; the Summarizer saw `rows[:5]`, the
answer carries "30" and the table reference, and the envelope holds all 30
rows of the executed query's result. -/
theorem C3_large_result_sampling_witness :
    c3resp.answer
      = generate_answer_text c3complete c3rowsJson c3resp.question c3resp.sql
          (c3resp.rows.take 5)
        ++ ("\n\n**Note:** Found " ++ toString c3resp.rows.length
          ++ " results. I've summarized the top few above. Please refer to the data table for the full list.") ∧
    pyContains c3resp.answer (toString c3resp.rows.length) = true ∧
    pyContains c3resp.answer "Please refer to the data table for the full list." = true ∧
    ∃ df : List Nat, c3exec c3resp.sql = .ok df ∧ c3resp.rows = c3dfToDict df :=
  C3_large_result_sampling c3complete c3exec c3dfToDict c3rowsJson "top parties"
    c3resp (by rfl) (by decide)


/-- Claim C8: the summarization prompt includes only the first 120 rows —
it is invariant under changing rows beyond the first 120 (at equal total
count) — and when the row list exceeds 120 the prompt carries the annotation
naming 120 and the true total; at 120 rows or fewer all rows are included
and the annotation is empty. -/
theorem C8_summarizer_row_budget {Row : Type} (complete : String → String)
    (rowsJson : List Row → String) (q sql : String) :
    (∀ rows rows' : List Row,
      rows.take MAX_ROWS_FOR_ANSWER = rows'.take MAX_ROWS_FOR_ANSWER →
      rows.length = rows'.length →
      answer_prompt rowsJson q sql rows = answer_prompt rowsJson q sql rows' ∧
      generate_answer_text complete rowsJson q sql rows
        = generate_answer_text complete rowsJson q sql rows') ∧
    (∀ rows : List Row, rows.length ≤ MAX_ROWS_FOR_ANSWER →
      rows.take MAX_ROWS_FOR_ANSWER = rows ∧ truncation_note rows.length = "") ∧
    (∀ rows : List Row, MAX_ROWS_FOR_ANSWER < rows.length →
      truncation_note rows.length
        = "\nNOTE: Only the first " ++ toString MAX_ROWS_FOR_ANSWER ++ " of "
          ++ toString rows.length
          ++ " rows are shown in Result rows. Base your answer on these, and you may describe overall patterns without listing every row." ∧
      pyContains (truncation_note rows.length) (toString MAX_ROWS_FOR_ANSWER) = true ∧
      pyContains (truncation_note rows.length) (toString rows.length) = true) := by
  refine ⟨?_, ?_, ?_⟩
  · intro rows rows' ht hl
    have hp : answer_prompt rowsJson q sql rows = answer_prompt rowsJson q sql rows' := by
      simp only [answer_prompt]
      rw [ht, hl]
    refine ⟨hp, ?_⟩
    unfold generate_answer_text
    rw [hp]
  · intro rows hl
    refine ⟨List.take_of_length_le hl, ?_⟩
    unfold truncation_note
    rw [if_neg (Nat.not_lt.mpr hl)]
  · intro rows hgt
    have hnote : truncation_note rows.length
        = "\nNOTE: Only the first " ++ toString MAX_ROWS_FOR_ANSWER ++ " of "
          ++ toString rows.length
          ++ " rows are shown in Result rows. Base your answer on these, and you may describe overall patterns without listing every row." := by
      unfold truncation_note
      rw [if_pos hgt]
    refine ⟨hnote, ?_, ?_⟩
    · rw [hnote]
      apply pyContains_of_decomp _ _ ("\nNOTE: Only the first ").data
        ((" of ").data ++ (toString rows.length).data
          ++ (" rows are shown in Result rows. Base your answer on these, and you may describe overall patterns without listing every row.").data)
      simp [string_data_append, List.append_assoc]
    · rw [hnote]
      apply pyContains_of_decomp _ _
        (("\nNOTE: Only the first ").data ++ (toString MAX_ROWS_FOR_ANSWER).data
          ++ (" of ").data)
        ((" rows are shown in Result rows. Base your answer on these, and you may describe overall patterns without listing every row.").data)
      simp [string_data_append, List.append_assoc]

set_option maxRecDepth 100000 in
/-- Witness for C8: 121-row lists differing only in the 121st row give the
same prompt; the note at 121 rows mentions "121"; at 30 rows nothing is cut
and the note is empty. -/
theorem C8_summarizer_row_budget_witness :
    answer_prompt c8rowsJson "q" "SELECT 1" (List.range 121)
      = answer_prompt c8rowsJson "q" "SELECT 1" (List.range 120 ++ [999]) ∧
    pyContains (truncation_note (List.range 121).length)
      (toString (List.range 121).length) = true ∧
    (List.range 30).take MAX_ROWS_FOR_ANSWER = List.range 30 ∧
    truncation_note (List.range 30).length = "" :=
  ⟨((C8_summarizer_row_budget c8complete c8rowsJson "q" "SELECT 1").1
      (List.range 121) (List.range 120 ++ [999]) (by decide) (by decide)).1,
    ((C8_summarizer_row_budget c8complete c8rowsJson "q" "SELECT 1").2.2
      (List.range 121) (by decide)).2.2,
    ((C8_summarizer_row_budget c8complete c8rowsJson "q" "SELECT 1").2.1
      (List.range 30) (by decide)).1,
    ((C8_summarizer_row_budget c8complete c8rowsJson "q" "SELECT 1").2.1
      (List.range 30) (by decide)).2⟩

end Bihar
